import Mathlib

/-!
Verification of the UFC-Fight-Predictor scraping pipeline
(`src/scraping/get_fight.py`, `get_fighter.py`, `event_scraper.py`,
`ufc_scraper.py`, `fetcher.py`).

The Python code is shallowly embedded: HTML documents are modelled at
exactly the granularity the code reads them (each BeautifulSoup lookup
becomes a structure field), Python dictionaries become ordered
association lists, and Python exceptions become an explicit
`Except PyErr` result.  Network fetches are oracles
(`String -> Option Page`, `none` meaning the fetch failed).
-/

set_option maxRecDepth 4000
set_option linter.unusedVariables false

namespace UFC

/-- Python exception kinds raised by the scraping code. -/
inductive PyErr where
  | attributeError
  | indexError
  | keyError
  | valueError
  | typeError
  deriving DecidableEq, Repr

instance {ε α : Type} [DecidableEq ε] [DecidableEq α] :
    DecidableEq (Except ε α) := fun a b =>
  match a, b with
  | .error x, .error y =>
    if h : x = y then isTrue (by simp [h]) else isFalse (by simp [h])
  | .ok x, .ok y =>
    if h : x = y then isTrue (by simp [h]) else isFalse (by simp [h])
  | .error _, .ok _ => isFalse (by simp)
  | .ok _, .error _ => isFalse (by simp)

/-- Values stored in the per-fight / per-fighter dictionaries.
Python floats are represented by `Rat`; every float the code produces
comes from a short decimal literal, so this is exact. -/
inductive PyVal where
  | none
  | str (s : String)
  | int (n : Int)
  | float (q : Rat)
  deriving DecidableEq, Repr

/-- A Python `dict` with string keys: an insertion-ordered association
list, as CPython preserves insertion order. -/
abbrev Dict := List (String × PyVal)

/-- `d[k] = v`: replace in place if the key exists, else append. -/
def dictSet (d : Dict) (k : String) (v : PyVal) : Dict :=
  match d with
  | [] => [(k, v)]
  | (k', v') :: t => if k' = k then (k, v) :: t else (k', v') :: dictSet t k v

/-- Key lookup (the value stored under `k`, if any). -/
def dictGet (d : Dict) (k : String) : Option PyVal :=
  match d with
  | [] => Option.none
  | (k', v') :: t => if k' = k then some v' else dictGet t k

/-- Python `d.get(k)`: returns `None` when the key is absent. -/
def pyGet (d : Dict) (k : String) : PyVal :=
  (dictGet d k).getD PyVal.none

/-- Python `del d[k]`: raises `KeyError` when the key is absent. -/
def dictDel (d : Dict) (k : String) : Except PyErr Dict :=
  match d with
  | [] => .error .keyError
  | (k', v') :: t =>
    if k' = k then .ok t
    else do
      let t' ← dictDel t k
      .ok ((k', v') :: t')

/-- Python list indexing `xs[i]` for a non-negative index:
raises `IndexError` when out of range. -/
def pyIdx {α : Type} (xs : List α) (i : Nat) : Except PyErr α :=
  match xs.get? i with
  | some a => .ok a
  | Option.none => .error .indexError

/-- Force an `Option` the way Python forces a possibly-`None` value:
using it raises the given exception (for example `AttributeError` from
`None.attr`, or `KeyError` from `d[k]`). -/
def req {α : Type} (o : Option α) (e : PyErr) : Except PyErr α :=
  match o with
  | some a => .ok a
  | Option.none => .error e

/-!
The built-in `String` functions (`splitOn`, `contains`, `trim`, ...)
are implemented with byte-position loops that the kernel does not
reduce, so the Python string operations are re-implemented here by
structural recursion over `String.data`.
-/

/-- Is `needle` a contiguous sublist of the second argument? -/
def subListOf (needle : List Char) : List Char → Bool
  | [] => needle.isEmpty
  | c :: t => needle.isPrefixOf (c :: t) || subListOf needle t

/-- Python substring test `needle in hay`. -/
def pyInStr (needle hay : String) : Bool :=
  subListOf needle.data hay.data

/-- Does the string contain the character? (Python `c in s`.) -/
def strContains (s : String) (c : Char) : Bool :=
  s.data.contains c

/-- Is the string empty? -/
def strIsEmpty (s : String) : Bool :=
  s.data.isEmpty

/-- `s.startswith(p)`. -/
def strStartsWith (s p : String) : Bool :=
  p.data.isPrefixOf s.data

/-- Drop the first `n` characters. -/
def strDrop (s : String) (n : Nat) : String :=
  ⟨s.data.drop n⟩

/-- Longest matching first segment. -/
def strTakeWhile (p : Char → Bool) (s : String) : String :=
  ⟨s.data.takeWhile p⟩

/-- Python `s.strip()`: drop whitespace from both ends. -/
def strTrim (s : String) : String :=
  ⟨((s.data.dropWhile Char.isWhitespace).reverse.dropWhile
      Char.isWhitespace).reverse⟩

/-- Splitter for a non-empty separator, by fuel over the input length
(each step consumes at least one character). -/
def splitOnFuel (sep : List Char) : Nat → List Char → List Char →
    List (List Char)
  | 0, l, acc => [acc.reverse ++ l]
  | _ + 1, [], acc => [acc.reverse]
  | fuel + 1, c :: t, acc =>
    if sep.isPrefixOf (c :: t) then
      acc.reverse :: splitOnFuel sep fuel (t.drop (sep.length - 1)) []
    else splitOnFuel sep fuel t (c :: acc)

/-- Python `s.split(sep)` for a non-empty literal separator:
non-overlapping occurrences, left to right. -/
def strSplitOnPy (s sep : String) : List String :=
  (splitOnFuel sep.data (s.data.length + 1) s.data []).map (fun l => ⟨l⟩)

/-- Replacement for a non-empty pattern, by fuel over the input length. -/
def replaceFuel (old new : List Char) : Nat → List Char → List Char
  | 0, l => l
  | _ + 1, [] => []
  | fuel + 1, c :: t =>
    if old.isPrefixOf (c :: t) then
      new ++ replaceFuel old new fuel (t.drop (old.length - 1))
    else c :: replaceFuel old new fuel t

/-- Python replacement with the empty pattern: `new` is inserted
before every character and at the end. -/
def emptyOldReplace (new : List Char) : List Char → List Char
  | [] => new
  | c :: t => new ++ c :: emptyOldReplace new t

/-- Python `s.replace(old, new)`: every non-overlapping occurrence,
left to right. -/
def strReplacePy (s old new : String) : String :=
  if old.data.isEmpty then ⟨emptyOldReplace new.data s.data⟩
  else ⟨replaceFuel old.data new.data (s.data.length + 1) s.data⟩

/-- ASCII lower-casing (Python `s.lower()` on the scraped labels). -/
def strLower (s : String) : String :=
  ⟨s.data.map Char.toLower⟩

/-- Value of a digit string. -/
def digitsToNat (l : List Char) : Nat :=
  l.foldl (fun n c => n * 10 + (c.toNat - 48)) 0

/-- Digit-string parsing: `some` exactly on non-empty all-digit input. -/
def strToNatPy (s : String) : Option Nat :=
  if !s.data.isEmpty && s.data.all Char.isDigit then
    some (digitsToNat s.data)
  else Option.none

/-- Whitespace tokenizer used by Python `s.split()` with no argument. -/
def wsTokensAux : List Char → List Char → List (List Char)
  | [], acc => if acc.isEmpty then [] else [acc.reverse]
  | c :: t, acc =>
    if c.isWhitespace then
      if acc.isEmpty then wsTokensAux t []
      else acc.reverse :: wsTokensAux t []
    else wsTokensAux t (c :: acc)

/-- Python `s.split()` with no separator: whitespace runs, no empty
tokens. -/
def pySplitWs (s : String) : List String :=
  (wsTokensAux s.data []).map (fun l => ⟨l⟩)

/-- Python `s.isdigit()` restricted to ASCII: non-empty and all digits. -/
def pyIsdigit (s : String) : Bool :=
  !s.data.isEmpty && s.data.all Char.isDigit

/-- Digit-group parsing for Python `int(...)`: ASCII digits, with
underscores allowed only between digits (`1_2` is `12`). -/
def pyIntDigits (t : String) : Option Nat :=
  if strContains t '_' then
    let parts := strSplitOnPy t "_"
    if parts.all (fun p => !p.data.isEmpty && p.data.all Char.isDigit) then
      strToNatPy (String.join parts)
    else Option.none
  else strToNatPy t

/-- Python `int(s)` on a string: strips whitespace, allows one sign,
then digits; raises `ValueError` otherwise.  (Unicode digits are out of
scope; no call site of the scraper feeds them.) -/
def pyInt (s : String) : Except PyErr Int :=
  let t := strTrim s
  if strStartsWith t "-" then
    match pyIntDigits (strDrop t 1) with
    | some n => .ok (-(n : Int))
    | Option.none => .error .valueError
  else if strStartsWith t "+" then
    match pyIntDigits (strDrop t 1) with
    | some n => .ok (n : Int)
    | Option.none => .error .valueError
  else
    match pyIntDigits t with
    | some n => .ok (n : Int)
    | Option.none => .error .valueError

/-- Python `float(s)` restricted to the guarded call sites of
`parse_totals`: `s` consists of digits and dots (the caller checked
`isdigit` guard on the dot-stripped string).  One dot at most is accepted;
`1.2.3` raises `ValueError` exactly as CPython does. -/
def pyFloat (s : String) : Except PyErr Rat :=
  match strSplitOnPy s "." with
  | [i] => .ok (((strToNatPy i).getD 0 : Nat) : Rat)
  | [i, f] =>
    .ok ((((strToNatPy i).getD 0 : Nat) : Rat)
      + (((strToNatPy f).getD 0 : Nat) : Rat) / ((10 : Rat) ^ f.data.length))
  | _ => .error .valueError

/-- Python `==` between dictionary values: equal only within a type,
except that ints and floats compare numerically. -/
def pyEq : PyVal → PyVal → Bool
  | .str a, .str b => a = b
  | .int a, .int b => a = b
  | .float a, .float b => a = b
  | .int a, .float b => ((a : Rat) = b)
  | .float a, .int b => (a = (b : Rat))
  | .none, .none => true
  | _, _ => false

/-- The apostrophe character, used by the height pattern. -/
def apos : Char := Char.ofNat 39

/-- Python `s.rstrip(c)`: drop every trailing occurrence of `c`. -/
def pyRstrip (c : Char) (s : String) : String :=
  ⟨(s.data.reverse.dropWhile (fun x => x = c)).reverse⟩

/-- Python `s.strip(c)`: drop occurrences of `c` from both ends. -/
def pyStripChar (c : Char) (s : String) : String :=
  ⟨((s.data.dropWhile (fun x => x = c)).reverse.dropWhile
      (fun x => x = c)).reverse⟩

/-! ## Value parsers (`get_fight.py` lines 16-54) -/

/-- `get_fight.parse_fraction` (lines 16-35): if the substring `of`
occurs, split on the literal `" of "` and convert the first two parts
with `int(...)`; otherwise return `(0, 0)`.  The `int` conversions and
the `parts[1]` index are the unguarded operations that can raise. -/
def parse_fraction (value : String) : Except PyErr (Int × Int) :=
  if pyInStr "of" value then do
    let p0 ← pyIdx (strSplitOnPy value " of ") 0
    let a ← pyInt p0
    let p1 ← pyIdx (strSplitOnPy value " of ") 1
    let b ← pyInt p1
    .ok (a, b)
  else .ok (0, 0)

/-- `get_fight.parse_time_to_seconds` (lines 37-54): `MM:SS` to total
seconds; `0` when no colon is present. -/
def parse_time_to_seconds (time_str : String) : Except PyErr Int :=
  if pyInStr ":" time_str then do
    let p0 ← pyIdx (strSplitOnPy time_str ":") 0
    let m ← pyInt p0
    let p1 ← pyIdx (strSplitOnPy time_str ":") 1
    let s ← pyInt p1
    .ok (m * 60 + s)
  else .ok 0

/-! ## HTML document models

Documents are modelled at exactly the granularity the Python code reads
them: every BeautifulSoup query the code performs (`find`, `find_all`,
`select_one`, `find_next_sibling`, indexing the result list) becomes a
structure field or a list operation on these models.  Text fields hold
the result of `.text` / `.get_text(...)` on the corresponding element.
-/

/-- A `<p>` element inside a statistics cell; `text` is its `.text`. -/
structure PTag where
  text : String
  deriving DecidableEq

/-- A `<td>` cell; `ps` are its `<p>` children in document order
(`td.find_all("p")`). -/
structure TdTag where
  ps : List PTag
  deriving DecidableEq

/-- A `<tr>` row; `tds` are its `<td>` cells (`row.find_all("td")`).
A header row built from `<th>` cells has `tds = []`. -/
structure TrTag where
  tds : List TdTag
  deriving DecidableEq

/-- A statistics table or section; `trs` is the result of
`find_all("tr")` inside it, in document order. -/
structure TableTag where
  trs : List TrTag
  deriving DecidableEq

/-- An `<a>` element: its full `class` attribute string, its raw
`.text`, and its `href` attribute (`tag.get("href")`, possibly absent). -/
structure ALink where
  cls : String
  text : String
  href : Option String
  deriving DecidableEq

/-- A `div.b-fight-details__person` block for one fighter:
its anchors in document order and whether it contains the
`<i class="b-fight-details__person-status_style_green">` winner marker. -/
structure PersonDiv where
  anchors : List ALink
  hasGreenStatus : Bool
  deriving DecidableEq

/-- An `<i>` element of the fight metadata block: full `class`
attribute string and raw `.text`. -/
structure ITag where
  cls : String
  text : String
  deriving DecidableEq

/-- A fight-details page, at the granularity `get_fight_stats` reads it.
`persons` is the `div.b-fight-details__persons` container (`none` when
the page does not match the expected layout); `fightTitle` is the
`.text` of `i.b-fight-details__fight-title`; `contentPs` are the
`p.b-fight-details__text` blocks of `div.b-fight-details__content`,
each as its list of `<i>` children; `sections` are the
`section.b-fight-details__section.js-fight-section` elements;
`tableAfterSection2` is `sections[2].find_next_sibling("table")`. -/
structure FightPage where
  persons : Option (List PersonDiv)
  fightTitle : Option String
  contentPs : Option (List (List ITag))
  sections : List TableTag
  tableAfterSection2 : Option TableTag
  deriving DecidableEq

/-- BeautifulSoup `find(name, class_=c)` with a single class token `c`
matches the first element whose class list contains `c`;
`splitOn " "` recovers the class list from the attribute string. -/
def findByClassToken (anchors : List ALink) (c : String) : Option ALink :=
  anchors.find? (fun a => (strSplitOnPy a.cls " ").any (fun x => x = c))

/-- BeautifulSoup `find(name, class_=s)` where `s` contains a space
matches on the exact attribute string. -/
def findByExactClass (anchors : List ALink) (s : String) : Option ALink :=
  anchors.find? (fun a => a.cls = s)

/-! ## Statistics table parsers (`get_fight.py` lines 56-195) -/

/-- Key construction shared by every statistics write of `parse_totals`
and `parse_sig_strikes`: the f-strings
`f"fighter_a_{mid}{suffix}"` / `f"fighter_b_{mid}{suffix}"`
(with `mid` the stat name possibly extended by `_landed`, `_attempted`
or `_seconds`). -/
def fkey (side : String) (mid : String) (suffix : String) : String :=
  "fighter_" ++ side ++ "_" ++ mid ++ suffix

/-- The round suffix of `parse_totals` / `parse_sig_strikes`:
`f"_0{r}" if multiple_rows else ""`. -/
def mkSuffix (multiple_rows : Bool) (r : Nat) : String :=
  if multiple_rows then "_0" ++ Nat.repr r else ""

/-- The aggregate-statistics category list of `parse_totals` (line 82). -/
def totalsStatNames : List String :=
  ["kd", "sig_str", "sig_str_pct", "total_str", "td", "td_pct",
   "sub_att", "rev", "ctrl"]

/-- One `stat_box[i]` cell of `parse_totals` (lines 96-129): read the
two `<p>` values, strip them, and dispatch on the stat kind. -/
def parseTotalsCell (d : Dict) (suffix : String) (stat_name : String)
    (td : TdTag) : Except PyErr Dict := do
  let pa ← pyIdx td.ps 0
  let pb ← pyIdx td.ps 1
  let fighter_a_value := strTrim pa.text
  let fighter_b_value := strTrim pb.text
  if stat_name ∈ (["kd", "sub_att", "rev"] : List String) then
    let d := dictSet d (fkey "a" stat_name suffix)
      (.int (((strToNatPy fighter_a_value).getD 0 : Nat) : Int))
    let d := dictSet d (fkey "b" stat_name suffix)
      (.int (((strToNatPy fighter_b_value).getD 0 : Nat) : Int))
    .ok d
  else if stat_name ∈ (["sig_str_pct", "td_pct"] : List String) then
    let f1 := strReplacePy (strReplacePy fighter_a_value "%" "") "---" "0"
    let f2 := strReplacePy (strReplacePy fighter_b_value "%" "") "---" "0"
    let qa ← if pyIsdigit (strReplacePy f1 "." "") then pyFloat f1 else pure 0
    let d := dictSet d (fkey "a" stat_name suffix) (.float qa)
    let qb ← if pyIsdigit (strReplacePy f2 "." "") then pyFloat f2 else pure 0
    let d := dictSet d (fkey "b" stat_name suffix) (.float qb)
    .ok d
  else if stat_name ∈ (["sig_str", "total_str", "td"] : List String) then
    let fa ← parse_fraction fighter_a_value
    let fb ← parse_fraction fighter_b_value
    let d := dictSet d (fkey "a" (stat_name ++ "_landed") suffix) (.int fa.1)
    let d := dictSet d (fkey "a" (stat_name ++ "_attempted") suffix) (.int fa.2)
    let d := dictSet d (fkey "b" (stat_name ++ "_landed") suffix) (.int fb.1)
    let d := dictSet d (fkey "b" (stat_name ++ "_attempted") suffix) (.int fb.2)
    .ok d
  else if stat_name = "ctrl" then
    let sa ← parse_time_to_seconds fighter_a_value
    let d := dictSet d (fkey "a" (stat_name ++ "_seconds") suffix) (.int sa)
    let sb ← parse_time_to_seconds fighter_b_value
    let d := dictSet d (fkey "b" (stat_name ++ "_seconds") suffix) (.int sb)
    .ok d
  else .ok d

/-- `get_fight.parse_totals` (lines 56-129).  `fighter_a_id_` and
`fighter_b_id_` are accepted exactly as in the source - and, exactly as
in the source, never used: every row writes `stat_values[0]` to the
`fighter_a_*` keys and `stat_values[1]` to the `fighter_b_*` keys. -/
def parse_totals (totals : TableTag) (fight : Dict)
    (fighter_a_id_ fighter_b_id_ : Nat) (multiple_rows : Bool) :
    Except PyErr Dict :=
  totals.trs.enum.foldlM
    (fun d rrow =>
      let suffix := mkSuffix multiple_rows rrow.1
      let stat_box := rrow.2.tds.drop 1
      totalsStatNames.enum.foldlM
        (fun d p =>
          if h : p.1 < stat_box.length then
            parseTotalsCell d suffix p.2 (stat_box.get ⟨p.1, h⟩)
          else pure d)
        d)
    fight

/-- The breakdown category list of `parse_sig_strikes` (line 162). -/
def sigStatNames : List String :=
  ["head", "body", "leg", "distance", "clinch", "ground"]

/-- One breakdown cell of `parse_sig_strikes` (lines 178-194):
always the `"X of Y"` format. -/
def parseSigCell (d : Dict) (suffix : String) (stat_name : String)
    (td : TdTag) : Except PyErr Dict := do
  let pa ← pyIdx td.ps 0
  let pb ← pyIdx td.ps 1
  let fa ← parse_fraction (strTrim pa.text)
  let fb ← parse_fraction (strTrim pb.text)
  let d := dictSet d (fkey "a" (stat_name ++ "_landed") suffix) (.int fa.1)
  let d := dictSet d (fkey "a" (stat_name ++ "_attempted") suffix) (.int fa.2)
  let d := dictSet d (fkey "b" (stat_name ++ "_landed") suffix) (.int fb.1)
  let d := dictSet d (fkey "b" (stat_name ++ "_attempted") suffix) (.int fb.2)
  .ok d

/-- `get_fight.parse_sig_strikes` (lines 135-194): like `parse_totals`
but dropping the first three `<td>` cells of each row and parsing the
six strike-location categories.  The fighter-id arguments are again
accepted and ignored, as in the source. -/
def parse_sig_strikes (sig_strike_element : TableTag) (fight : Dict)
    (fighter_a_id_ fighter_b_id_ : Nat) (multiple_rows : Bool) :
    Except PyErr Dict :=
  sig_strike_element.trs.enum.foldlM
    (fun d rrow =>
      let suffix := mkSuffix multiple_rows rrow.1
      let stat_box := rrow.2.tds.drop 3
      sigStatNames.enum.foldlM
        (fun d p =>
          if h : p.1 < stat_box.length then
            parseSigCell d suffix p.2 (stat_box.get ⟨p.1, h⟩)
          else pure d)
        d)
    fight

/-! ## Dates (`datetime.strptime` / `strftime` as used by the scraper) -/

/-- Full month names for the `%B` directive. -/
def monthsFull : List String :=
  ["January", "February", "March", "April", "May", "June", "July",
   "August", "September", "October", "November", "December"]

/-- Abbreviated month names for the `%b` directive. -/
def monthsAbbr : List String :=
  ["Jan", "Feb", "Mar", "Apr", "May", "Jun", "Jul", "Aug", "Sep",
   "Oct", "Nov", "Dec"]

/-- Gregorian month lengths, as `datetime` validates them. -/
def daysInMonth (m y : Nat) : Nat :=
  if m = 2 then
    if y % 4 = 0 && (y % 100 ≠ 0 || y % 400 = 0) then 29 else 28
  else if m ∈ ([4, 6, 9, 11] : List Nat) then 30
  else 31

/-- Zero-pad to two digits (`%d`, `%m`). -/
def pad2 (n : Nat) : String :=
  if n < 10 then "0" ++ Nat.repr n else Nat.repr n

/-- Four-digit year (`%Y`; the scraper only sees four-digit years). -/
def pad4 (n : Nat) : String :=
  if n < 10 then "000" ++ Nat.repr n
  else if n < 100 then "00" ++ Nat.repr n
  else if n < 1000 then "0" ++ Nat.repr n
  else Nat.repr n

/-- `datetime.strptime(s, "<month> %d, %Y")`: month name from the given
list, a one- or two-digit day, `", "`, then the year; the day is
validated against the month length.  Any mismatch raises `ValueError`. -/
def pyStrptimeMonthDY (months : List String) (s : String) :
    Except PyErr (Nat × Nat × Nat) :=
  match months.enum.find? (fun p => strStartsWith s (p.2 ++ " ")) with
  | Option.none => .error .valueError
  | some mi =>
    let rest := strDrop s (mi.2.data.length + 1)
    let dayStr := strTakeWhile Char.isDigit rest
    if dayStr.data.length = 0 || 2 < dayStr.data.length then .error .valueError
    else
      let rest2 := strDrop rest dayStr.data.length
      if !strStartsWith rest2 ", " then .error .valueError
      else
        let yStr := strDrop rest2 2
        let yDigits := strTakeWhile Char.isDigit yStr
        if yDigits.data.length = 0 || 4 < yDigits.data.length ||
            strDrop yStr yDigits.data.length ≠ "" then .error .valueError
        else
          let m := mi.1 + 1
          let day := (strToNatPy dayStr).getD 0
          let y := (strToNatPy yDigits).getD 0
          if y = 0 then .error .valueError
          else if day = 0 || daysInMonth m y < day then .error .valueError
          else .ok (day, m, y)

/-- `datetime.strptime(s, fmt).strftime("%d/%m/%Y")` for the two month
formats the scraper uses. -/
def pyDateToDMY (months : List String) (s : String) : Except PyErr String := do
  let dmy ← pyStrptimeMonthDY months s
  .ok (pad2 dmy.1 ++ "/" ++ pad2 dmy.2.1 ++ "/" ++ pad4 dmy.2.2)

/-! ## Fighter profile extractor (`get_fighter.py`) -/

/-- A `li.b-list__box-list-item` entry.  `labelText` is the result of
`label.get_text(strip=True)` for the `i.b-list__box-item-title` child
when that child exists; `fullText` is `li.get_text(strip=True)`. -/
structure LiTag where
  labelText : Option String
  fullText : String
  deriving DecidableEq

/-- `ul.b-list__box-list` with its `li` items (`find_all`). -/
structure StatsListDiv where
  lis : List LiTag
  deriving DecidableEq

/-- `div.b-list__info-box` and the optional stats list inside it. -/
structure InfoBoxDiv where
  statsList : Option StatsListDiv
  deriving DecidableEq

/-- `div.b-fight-details.b-fight-details_margin-top` and the optional
info box inside it. -/
structure StatsDiv where
  infoBox : Option InfoBoxDiv
  deriving DecidableEq

/-- `h2.b-content__title`.  `highlight` is the result of
`get_text(strip=True)` on `span.b-content__title-highlight` when that
span exists; `recordSpan` is the raw `.text` of
`span.b-content__title-record`. -/
structure TitleH2 where
  highlight : Option String
  recordSpan : Option String
  deriving DecidableEq

/-- One `div.l-page__container`. -/
structure ContainerDiv where
  title : Option TitleH2
  statsDiv : Option StatsDiv
  deriving DecidableEq

/-- A fighter profile page at the granularity
`get_fighter_basic_stats` reads it. -/
structure FighterPage where
  containers : List ContainerDiv
  deriving DecidableEq

/-- The placeholder-filtering rule of the `li` loop
(`get_fighter.py` lines 78-81): keep the value only when it is
non-empty and contains no `-` character anywhere; otherwise store
`None`. -/
def li_store (value : String) : PyVal :=
  if !(strIsEmpty value) && !(strContains value '-') then .str value
  else .none

/-- The prefix match of the height regular expression of
`get_fighter.py` line 107 (one or more digits, an apostrophe, optional
whitespace, one or more digits, a double quote), returning the two
digit groups. -/
def heightMatch (s : String) : Option (String × String) :=
  let l := s.data
  let d1 := l.takeWhile Char.isDigit
  if d1.isEmpty then Option.none
  else
    match l.drop d1.length with
    | [] => Option.none
    | c :: rest =>
      if c = apos then
        let rest2 := rest.dropWhile Char.isWhitespace
        let d2 := rest2.takeWhile Char.isDigit
        if d2.isEmpty then Option.none
        else
          match rest2.drop d2.length with
          | [] => Option.none
          | q :: _ => if q = '"' then some (⟨d1⟩, ⟨d2⟩) else Option.none
      else Option.none

/-- `get_fighter.py` lines 84-89: reformat the stored date of birth
(`%b %d, %Y` to `%d/%m/%Y`), or store `None` when it is `None`. -/
def fi_dob_step (d : Dict) : Except PyErr Dict :=
  match pyGet d "dob" with
  | .none => pure (dictSet d "dob" .none)
  | .str s => do
      let ds ← pyDateToDMY monthsAbbr s
      pure (dictSet d "dob" (.str ds))
  | _ => .error .typeError

/-- `get_fighter.py` lines 91-95: `int(weight.split()[0])`. -/
def fi_weight_step (d : Dict) : Except PyErr Dict :=
  match pyGet d "weight" with
  | .none => pure (dictSet d "weight" .none)
  | .str s => do
      let tok ← pyIdx (pySplitWs s) 0
      let n ← pyInt tok
      pure (dictSet d "weight" (.int n))
  | _ => .error .attributeError

/-- `get_fighter.py` lines 98-102: `int(reach.strip('"'))`. -/
def fi_reach_step (d : Dict) : Except PyErr Dict :=
  match pyGet d "reach" with
  | .none => pure (dictSet d "reach" .none)
  | .str s => do
      let n ← pyInt (pyStripChar '"' s)
      pure (dictSet d "reach" (.int n))
  | _ => .error .attributeError

/-- `get_fighter.py` lines 105-113: a stored `None` stays `None`; a
string is matched against the height pattern, and on a match the two
groups give `feet * 12 + inches`; on a failed match `match.group(1)`
raises `AttributeError`. -/
def fi_height_step (d : Dict) : Except PyErr Dict :=
  match pyGet d "height" with
  | .none => pure (dictSet d "height" .none)
  | .str s =>
    (match heightMatch s with
     | some fi => do
         let feet ← pyInt fi.1
         let inches ← pyInt fi.2
         pure (dictSet d "height" (.int (feet * 12 + inches)))
     | Option.none => .error .attributeError)
  | _ => .error .typeError

/-- Body of `get_fighter_basic_stats` after a successful fetch
(`get_fighter.py` lines 30-117).  `.ok none` models the guarded
`return None` paths; exceptions model the unguarded operations. -/
def fighterInfoFromPage (pg : FighterPage) : Except PyErr (Option Dict) := do
  let container ← pyIdx pg.containers 1
  match container.title with
  | Option.none => .ok Option.none
  | some title_h2 => do
    let name ← req title_h2.highlight .attributeError
    let rc ← req title_h2.recordSpan .attributeError
    let recTok ← pyIdx (pySplitWs rc) 1
    let d := dictSet (dictSet [] "name" (.str name)) "record"
      (.str (strTrim recTok))
    match container.statsDiv with
    | Option.none => .ok Option.none
    | some sd =>
      match sd.infoBox with
      | Option.none => .ok Option.none
      | some ib =>
        match ib.statsList with
        | Option.none => .ok Option.none
        | some sl => do
          let d := sl.lis.foldl
            (fun d li =>
              match li.labelText with
              | Option.none => d
              | some lab =>
                let key := strLower (pyRstrip ':' lab)
                let value := strTrim (strReplacePy li.fullText lab "")
                dictSet d key (li_store value))
            d
          let d ← fi_dob_step d
          let d ← fi_weight_step d
          let d ← fi_reach_step d
          let d ← fi_height_step d
          .ok (some d)

/-- `get_fighter.get_fighter_basic_stats` including the
`fetcher.get_fighter_page` URL-kind check.  `net` is the network
oracle (maps a URL to the parsed page, `none` on fetch failure); the
URL argument is a dictionary value because `get_fight_stats` passes
`fight.get(...)`, which can be `None` (raising `TypeError` inside the
the `in` check of the fetcher, as in CPython). -/
def get_fighter_basic_stats (net : String → Option FighterPage)
    (fighter_url : PyVal) : Except PyErr (Option Dict) :=
  match fighter_url with
  | .str u =>
    if pyInStr "fighter-details" u then
      match net u with
      | Option.none => .ok Option.none
      | some pg => fighterInfoFromPage pg
    else .ok Option.none
  | _ => .error .typeError

/-! ## Fight statistics extractor (`get_fight.py` lines 198-338)

`get_fight_stats` is embedded as a sequence of phase functions, each
covering a contiguous block of the source, composed in source order by
`gfs_core`.  `fighter_a_id` is the random bit drawn at line 217
(`random.getrandbits(1)`), passed in explicitly so that theorems can
quantify over it. -/

/-- Dictionary value for an `href` attribute, which may be absent. -/
def optStrToPyVal : Option String → PyVal
  | some s => .str s
  | Option.none => .none

/-- Lines 229-241: collect `(name, link)` from every person block that
has an `a.b-fight-details__person-link` anchor, in page order. -/
def collectNamesLinks (ps : List PersonDiv) : List (String × Option String) :=
  ps.foldl
    (fun acc fighter =>
      match findByClassToken fighter.anchors "b-fight-details__person-link" with
      | some name_link => acc ++ [(strTrim name_link.text, name_link.href)]
      | Option.none => acc)
    []

/-- Lines 243-247: index the collected names and links with the random
bit (`fighter_a_id`) and `1 - fighter_a_id` and store them. -/
def gfs_names (ps : List PersonDiv) (fighter_a_id : Nat) :
    Except PyErr Dict := do
  let fighter_names := (collectNamesLinks ps).map Prod.fst
  let fighter_links := (collectNamesLinks ps).map Prod.snd
  let na ← pyIdx fighter_names fighter_a_id
  let d := dictSet [] "fighter_a_name" (.str na)
  let nb ← pyIdx fighter_names (1 - fighter_a_id)
  let d := dictSet d "fighter_b_name" (.str nb)
  let la ← pyIdx fighter_links fighter_a_id
  let d := dictSet d "fighter_a_link" (optStrToPyVal la)
  let lb ← pyIdx fighter_links (1 - fighter_a_id)
  let d := dictSet d "fighter_b_link" (optStrToPyVal lb)
  .ok d

/-- Lines 258-264: merge a fetched profile dictionary under the side
prefix (skipped when the lookup returned `None`). -/
def mergeBio (d : Dict) (px : String) (bio : Option Dict) : Dict :=
  match bio with
  | some b => b.foldl (fun d kv => dictSet d (px ++ kv.1) kv.2) d
  | Option.none => d

/-- Lines 254-268: fetch both fighter profiles, merge them under the
side prefixes, then delete the link fields. -/
def gfs_bio (netFi : String → Option FighterPage) (d : Dict) :
    Except PyErr Dict := do
  let fighter_a_basic ← get_fighter_basic_stats netFi (pyGet d "fighter_a_link")
  let fighter_b_basic ← get_fighter_basic_stats netFi (pyGet d "fighter_b_link")
  let d := mergeBio d "fighter_a_" fighter_a_basic
  let d := mergeBio d "fighter_b_" fighter_b_basic
  let d ← dictDel d "fighter_a_link"
  let d ← dictDel d "fighter_b_link"
  .ok d

/-- First `<i>` of a metadata block whose class list contains the given
token, together with its position among the `<i>` siblings (so that
`find_next_sibling("i")` is position + 1). -/
def findITag (items : List ITag) (c : String) : Option (Nat × ITag) :=
  items.enum.find? (fun p => (strSplitOnPy p.2.cls " ").any (fun x => x = c))

/-- Lines 270-295: date/location, weight class, and the metadata block
(method, final round, finish time, rounds format), with the source's
forcing order: `round` is forced at line 288, `time` at line 289,
`method` at line 292 and `format` at line 295. -/
def gfs_meta (page : FightPage) (d : Dict) (date location : String) :
    Except PyErr Dict := do
  let ds ← pyDateToDMY monthsFull date
  let d := dictSet d "date" (.str ds)
  let d := dictSet d "location" (.str location)
  let title ← req page.fightTitle .attributeError
  let wc ← pyIdx (pySplitWs title) 0
  let d := dictSet d "weight_class" (.str wc)
  let blocks ← req page.contentPs .attributeError
  let fight_details ← pyIdx blocks 0
  let method? := findITag fight_details "b-fight-details__text-item_first"
  let round? := findITag fight_details "b-fight-details__text-item"
  let roundTag ← req round? .attributeError
  let timeTag ← req (fight_details.get? (roundTag.1 + 1)) .attributeError
  let format? := fight_details.get? (roundTag.1 + 2)
  let methodTag ← req method? .attributeError
  let d := dictSet d "victory_method"
    (.str (String.join ((pySplitWs methodTag.2.text).drop 1)))
  let fr ← pyIdx (pySplitWs roundTag.2.text) 1
  let d := dictSet d "final_round" (.str fr)
  let ft ← pyIdx (pySplitWs timeTag.text) 1
  let d := dictSet d "finish_time" (.str ft)
  let formatTag ← req format? .attributeError
  let nr ← pyIdx (pySplitWs formatTag.text) 2
  let d := dictSet d "number_of_rounds" (.str nr)
  .ok d

/-- Lines 298-308: find the green winner-status marker (first person
block carrying it), walk to its enclosing block, and read the name from
the anchor whose class attribute is exactly
`"b-link b-fight-details__person-link"`.  A missing marker or missing
anchor raises `AttributeError` (from `None.find_parent` / `None.text`). -/
def detectWinnerName (ps : List PersonDiv) : Except PyErr String := do
  let winner_div ← req (ps.find? (fun p => p.hasGreenStatus)) .attributeError
  let winner_name_tag ←
    req (findByExactClass winner_div.anchors
      "b-link b-fight-details__person-link") .attributeError
  .ok (strTrim winner_name_tag.text)

/-- Lines 298-313: compare the detected winner name with
`fight["fighter_a_name"]`; equal means side `a`, anything else means
side `b`. -/
def gfs_winner (ps : List PersonDiv) (d : Dict) : Except PyErr Dict := do
  let winner_name ← detectWinnerName ps
  let va ← req (dictGet d "fighter_a_name") .keyError
  .ok (dictSet d "winner"
    (.str (if pyEq (.str winner_name) va then "a" else "b")))

/-- Lines 316-335: the four statistics-table passes, in source order
(aggregate totals from `sections[1]`, per-round totals from
`sections[2]`, aggregate breakdown from the table following
`sections[2]`, per-round breakdown from `sections[4]`). -/
def gfs_stats (page : FightPage) (d : Dict)
    (fighter_a_id fighter_b_id : Nat) : Except PyErr Dict := do
  let totals_table ← pyIdx page.sections 1
  let d ← parse_totals totals_table d fighter_a_id fighter_b_id false
  let test ← pyIdx page.sections 2
  let d ← parse_totals test d fighter_a_id fighter_b_id true
  let sib ← req page.tableAfterSection2 .attributeError
  let d ← parse_sig_strikes sib d fighter_a_id fighter_b_id false
  let test2 ← pyIdx page.sections 4
  let d ← parse_sig_strikes test2 d fighter_a_id fighter_b_id true
  .ok d

/-- `get_fight.get_fight_stats` after a successful fetch: the phases in
source order. -/
def gfs_core (netFi : String → Option FighterPage) (page : FightPage)
    (fighter_a_id : Nat) (date location : String) : Except PyErr Dict := do
  let ps ← req page.persons .attributeError
  let d ← gfs_names ps fighter_a_id
  let d ← gfs_bio netFi d
  let d ← gfs_meta page d date location
  let d ← gfs_winner ps d
  gfs_stats page d fighter_a_id (1 - fighter_a_id)

/-- `fetcher.get_fight_page`: URL-kind check then fetch; a `None` URL
raises `TypeError` inside the `in` check. -/
def getFightPage (netF : String → Option FightPage)
    (fight_url : Option String) : Except PyErr (Option FightPage) :=
  match fight_url with
  | Option.none => .error .typeError
  | some u => .ok (if pyInStr "fight-details" u then netF u else Option.none)

/-- `get_fight.get_fight_stats` (lines 198-338): `ok none` models the
`return None` on fetch failure; any other outcome is the assembled
record or a propagated exception. -/
def get_fight_stats (netF : String → Option FightPage)
    (netFi : String → Option FighterPage) (fighter_a_id : Nat)
    (fight_url : Option String) (location date : String) :
    Except PyErr (Option Dict) := do
  let page? ← getFightPage netF fight_url
  match page? with
  | Option.none => .ok Option.none
  | some page => do
    let d ← gfs_core netFi page fighter_a_id date location
    .ok (some d)

/-! ## Event fight-list extractor (`event_scraper.py`) -/

/-- An event page at the granularity `get_event_fights` reads it:
the `tbody` located by the CSS selector (`none` when `select_one`
fails), holding its flag anchors in document order. -/
structure EventPage where
  tbody : Option (List ALink)
  deriving DecidableEq

/-- Lines 43-54: green-flag anchors first (one URL each), then every
other bordered-flag anchor (fights without a winner, whose two flag
links per row are copies). -/
def fightUrlsOf (tb : List ALink) : List (Option String) :=
  let a_tags := tb.filter (fun a => a.cls = "b-flag b-flag_style_green")
  let a_tags_strange :=
    tb.filter (fun a => a.cls = "b-flag b-flag_style_bordered")
  a_tags.map (fun t => t.href) ++
    (a_tags_strange.enum.filter (fun p => p.1 % 2 = 0)).map
      (fun p => p.2.href)

/-- Lines 58-60: process the fight URLs in order, appending each
result; `bits i` is the random bit `get_fight_stats` draws for the i-th
fight.  An exception in any fight propagates (there is no handler). -/
def processFights (netF : String → Option FightPage)
    (netFi : String → Option FighterPage) (bits : Nat → Nat)
    (date location : String) : Nat → List (Option String) →
    Except PyErr (List (Option Dict))
  | _, [] => .ok []
  | i, u :: rest => do
    let f ← get_fight_stats netF netFi (bits i) u location date
    let fs ← processFights netF netFi bits date location (i + 1) rest
    .ok (f :: fs)

/-- `event_scraper.get_event_fights` (lines 11-65), including the
`fetcher.get_event_page` URL-kind check. -/
def get_event_fights (netE : String → Option EventPage)
    (netF : String → Option FightPage)
    (netFi : String → Option FighterPage) (bits : Nat → Nat)
    (url : String) (date location : String) :
    Except PyErr (Option (List (Option Dict))) :=
  match (if pyInStr "event-details" url then netE url else Option.none) with
  | Option.none => .ok Option.none
  | some ep => do
    let tbody ← req ep.tbody .attributeError
    let fights ←
      processFights netF netFi bits date location 0 (fightUrlsOf tbody)
    .ok (some fights)

/-- First-occurrence de-duplication (reference definition for C7). -/
def dedupFirstAux (seen : List (Option String)) :
    List (Option String) → List (Option String)
  | [] => []
  | x :: t =>
    if x ∈ seen then dedupFirstAux seen t
    else x :: dedupFirstAux (x :: seen) t

/-- Written from the spec, for comparison with `fightUrlsOf` (C7):
"output is an ordered sequence ... (order = on-page listing order)"
with "exactly one fight URL ... derived per row" - the flag anchors in
document order, de-duplicated by first occurrence. -/
def spec_listing_order (tb : List ALink) : List (Option String) :=
  dedupFirstAux []
    ((tb.filter (fun a =>
        a.cls = "b-flag b-flag_style_green" ||
        a.cls = "b-flag b-flag_style_bordered")).map (fun a => a.href))

/-- Each element duplicated in place: the shape of the bordered-flag
anchor list when every no-winner row contributes its two copies
adjacently. -/
def dupPairs {α : Type} : List α → List α
  | [] => []
  | x :: t => x :: x :: dupPairs t

/-! ## Event discovery date cutoff (C8) -/

/-- An event row as Event Discovery produces it, with the date
abstracted to a totally ordered key (larger = more recent). -/
structure EventEntry where
  name : String
  dateKey : Nat
  location : String
  url : String
  deriving DecidableEq

/-- Modelled from the spec: the date-cutoff stopping rule of
`UFCScraper.get_all_fight_data`, which `scraper_main.py` invokes with a
date string but whose definition is not among the sources
(`ufc_scraper.py` only defines the count-limited
`get_recent_events`).  Spec 4.5: the crawl produces events in
most-recent-first order, "stopping when ... an explicit date/year
cutoff is reached (events strictly older than the cutoff excluded)":
the crawl walks the listing in order and stops at the first event
older than the cutoff. -/
def get_all_fight_data_cutoff (events : List EventEntry) (cutoff : Nat) :
    List EventEntry :=
  events.takeWhile (fun e => cutoff ≤ e.dateKey)

/-! ## Concrete page fixtures

Small concrete documents used to evaluate the embedded extractors at
specific inputs (for counterexamples and witnesses). -/

/-- The exact class attribute of a fighter name anchor on a fight page
(matches both the single-token and the exact-string search). -/
def personLinkCls : String := "b-link b-fight-details__person-link"

/-- A person block with one name anchor. -/
def mkPerson (name url : String) (green : Bool) : PersonDiv :=
  ⟨[⟨personLinkCls, name, some url⟩], green⟩

/-- An all-empty statistics table. -/
def emptyTable : TableTag := ⟨[]⟩

/-- Five sections, the layout `get_fight_stats` indexes into. -/
def fiveEmptySections : List TableTag :=
  [emptyTable, emptyTable, emptyTable, emptyTable, emptyTable]

/-- A standard metadata block (method / round / time / format). -/
def metaBlock : List ITag :=
  [⟨"b-fight-details__text-item_first", "Method: KO/TKO"⟩,
   ⟨"b-fight-details__text-item", "Round: 3"⟩,
   ⟨"b-fight-details__text-item", "Time: 4:20"⟩,
   ⟨"b-fight-details__text-item", "Time format: 3 Rnd (5-5-5)"⟩]

/-- Aggregate totals section for the C1 fixture: a header row and one
data row whose first cell is the fighter-name column, followed by the
knockdown cell (Alice 3, Bob 1) and the significant-strikes cell
(Alice `10 of 20`, Bob `5 of 15`). -/
def c1Totals : TableTag :=
  ⟨[⟨[]⟩,
    ⟨[⟨[]⟩,
      ⟨[⟨"3"⟩, ⟨"1"⟩]⟩,
      ⟨[⟨"10 of 20"⟩, ⟨"5 of 15"⟩]⟩]⟩]⟩

/-- Fixture for C1: page-first fighter Alice (knockdowns 3), page-second
fighter Bob (knockdowns 1, carrying the winner marker). -/
def c1Page : FightPage :=
  ⟨some [mkPerson "Alice" "http://x/fighter-details/a1" false,
         mkPerson "Bob" "http://x/fighter-details/b1" true],
   some " Lightweight Bout ",
   some [metaBlock],
   [emptyTable, c1Totals, emptyTable, emptyTable, emptyTable],
   some emptyTable⟩

/-- Fixture for the C2 witness: winner marker on the page-first fighter
Bob, empty statistics tables. -/
def c2Page : FightPage :=
  ⟨some [mkPerson "Bob" "http://x/fighter-details/b1" true,
         mkPerson "Alice" "http://x/fighter-details/a1" false],
   some " Lightweight Bout ",
   some [metaBlock],
   fiveEmptySections,
   some emptyTable⟩

/-- Fixture for the winner-name mismatch: the green marker sits in a
third person block whose anchor names Carol, who is neither of the two
fighters the side labels were assigned from. -/
def carolPage : FightPage :=
  ⟨some [mkPerson "Alice" "http://x/fighter-details/a1" false,
         mkPerson "Bob" "http://x/fighter-details/b1" false,
         mkPerson "Carol" "http://x/fighter-details/c1" true],
   some " Lightweight Bout ",
   some [metaBlock],
   fiveEmptySections,
   some emptyTable⟩

/-- Fixture for C4: a fight page with no winner-status marker at all. -/
def noMarkerPage : FightPage :=
  ⟨some [mkPerson "Alice" "http://x/fighter-details/a1" false,
         mkPerson "Bob" "http://x/fighter-details/b1" false],
   some " Lightweight Bout ",
   some [metaBlock],
   fiveEmptySections,
   some emptyTable⟩

/-- Fixture for C3: a fight page whose expected persons container is
missing. -/
def noPersonsPage : FightPage :=
  ⟨Option.none, Option.none, Option.none, [], Option.none⟩

/-- Fighter-page network oracle used by the fight fixtures: every
profile fetch fails, so the bio merge is skipped. -/
def noFighterNet : String → Option FighterPage := fun _ => Option.none

/-- The record `gfs_core` produces on `c1Page` for a given random bit
(empty on error; the theorems assert the `.ok` shape explicitly). -/
def c1Rec (bit : Nat) : Dict :=
  match gfs_core noFighterNet c1Page bit "August 09, 2025"
      "Las Vegas, Nevada, USA" with
  | .ok d => d
  | .error _ => []

/-- The record `gfs_core` produces on `c2Page` with bit 0. -/
def c2Rec : Dict :=
  match gfs_core noFighterNet c2Page 0 "August 09, 2025"
      "Las Vegas, Nevada, USA" with
  | .ok d => d
  | .error _ => []

/-- The record `gfs_core` produces on `carolPage` with bit 0. -/
def carolRec : Dict :=
  match gfs_core noFighterNet carolPage 0 "August 09, 2025"
      "Las Vegas, Nevada, USA" with
  | .ok d => d
  | .error _ => []

/-- The height text of five feet eleven inches, written in the
feet-apostrophe-inches-quote form the height pattern expects. -/
def h511 : String := ⟨['5', apos, ' ', '1', '1', '"']⟩

/-- A fighter page whose profile list is the given items (title and
record present, as on a real profile page). -/
def mkFighterPage (lis : List LiTag) : FighterPage :=
  ⟨[⟨Option.none, Option.none⟩,
    ⟨some ⟨some "Jon Jones", some " Record: 22-1-0 "⟩,
     some ⟨some ⟨some ⟨lis⟩⟩⟩⟩]⟩

/-- Profile entries with a well-formed height and a hyphenated stance
value. -/
def goodFighterLis : List LiTag :=
  [⟨some "Height:", "Height:" ++ h511⟩,
   ⟨some "STANCE:", "STANCE:Karate-Do"⟩]

/-- Profile entry with a malformed (but dash-free, non-empty) height. -/
def badHeightLis : List LiTag :=
  [⟨some "Height:", "Height:six feet"⟩]

/-- The well-formed fighter page fixture. -/
def goodFighterPage : FighterPage := mkFighterPage goodFighterLis

/-- The malformed-height fighter page fixture. -/
def badHeightFighterPage : FighterPage := mkFighterPage badHeightLis

/-- Event page with two decided fights (for C3). -/
def c3EventPage : EventPage :=
  ⟨some [⟨"b-flag b-flag_style_green", "", some "http://x/fight-details/f1"⟩,
         ⟨"b-flag b-flag_style_green", "", some "http://x/fight-details/f2"⟩]⟩

/-- Fight-page oracle for C3: the first fight's page is missing its
persons container, the second is fine. -/
def c3NetF : String → Option FightPage := fun u =>
  if u = "http://x/fight-details/f1" then some noPersonsPage
  else if u = "http://x/fight-details/f2" then some c2Page
  else Option.none

/-- Event-page oracle for C3. -/
def c3NetE : String → Option EventPage := fun _ => some c3EventPage

/-- A tbody whose no-winner fight row (two copies of `u1`) is listed
before a decided fight row (`u2`) - for the C7 ordering counterexample. -/
def c7Tb : List ALink :=
  [⟨"b-flag b-flag_style_bordered", "", some "u1"⟩,
   ⟨"b-flag b-flag_style_bordered", "", some "u1"⟩,
   ⟨"b-flag b-flag_style_green", "", some "u2"⟩]

/-- Three events in most-recent-first order (for the C8 witness). -/
def c8Events : List EventEntry :=
  [⟨"E1", 30, "L1", "u1"⟩, ⟨"E2", 20, "L2", "u2"⟩, ⟨"E3", 10, "L3", "u3"⟩]

/-- The record fields whose survival across the statistics passes the
winner theorems track: the winner label and the two side names. -/
def ProtKey (k : String) : Prop :=
  k = "winner" ∨ k = "fighter_a_name" ∨ k = "fighter_b_name"

/-! ## General lemmas -/

theorem strdata_append : ∀ (a b : String), (a ++ b).data = a.data ++ b.data
  | ⟨_⟩, ⟨_⟩ => rfl

theorem str_ne_of_data_len {a b : String}
    (h : a.data.length ≠ b.data.length) : a ≠ b :=
  fun e => h (by rw [e])

theorem toDigitsCore_length_le (b : Nat) :
    ∀ (f n : Nat) (ds : List Char),
      ds.length ≤ (Nat.toDigitsCore b f n ds).length := by
  intro f
  induction f with
  | zero => intro n ds; simp [Nat.toDigitsCore]
  | succ f ih =>
    intro n ds
    simp only [Nat.toDigitsCore]
    split
    · simp
    · calc ds.length ≤ (Nat.digitChar (n % b) :: ds).length := by simp
        _ ≤ _ := ih (n / b) (Nat.digitChar (n % b) :: ds)

theorem toDigitsCore_length_lt (b : Nat) :
    ∀ (f : Nat), 0 < f → ∀ (n : Nat) (ds : List Char),
      ds.length < (Nat.toDigitsCore b f n ds).length := by
  intro f hf n ds
  cases f with
  | zero => exact absurd hf (by simp)
  | succ f =>
    simp only [Nat.toDigitsCore]
    split
    · simp
    · calc ds.length < (Nat.digitChar (n % b) :: ds).length := by simp
        _ ≤ _ := toDigitsCore_length_le b f (n / b) _

theorem repr_data_length_pos (n : Nat) : 0 < (Nat.repr n).data.length := by
  simpa [Nat.repr, Nat.toDigits, List.asString] using
    toDigitsCore_length_lt 10 (n + 1) (Nat.succ_pos n) n []

theorem mkSuffix_true_len (r : Nat) : 3 ≤ (mkSuffix true r).data.length := by
  have h := repr_data_length_pos r
  have e : (mkSuffix true r).data = "_0".data ++ (Nat.repr r).data := by
    simp [mkSuffix, strdata_append]
  rw [e, List.length_append]
  have : ("_0" : String).data.length = 2 := rfl
  omega

theorem mkSuffix_cases (mr : Bool) (r : Nat) :
    mkSuffix mr r = "" ∨ 3 ≤ (mkSuffix mr r).data.length := by
  cases mr
  · exact Or.inl rfl
  · exact Or.inr (mkSuffix_true_len r)

theorem fkey_len (side mid sfx : String) :
    (fkey side mid sfx).data.length
      = 9 + side.data.length + mid.data.length + sfx.data.length := by
  have h8 : ("fighter_" : String).data.length = 8 := rfl
  have h1 : ("_" : String).data.length = 1 := rfl
  simp [fkey, strdata_append, List.length_append, h8, h1]
  omega

theorem fkey_ne_prot (side mid sfx k0 : String)
    (hside : side.data.length = 1) (hmid2 : 2 ≤ mid.data.length)
    (hmid4 : mid.data.length ≠ 4)
    (hsfx : sfx = "" ∨ 3 ≤ sfx.data.length)
    (hk0 : ProtKey k0) : fkey side mid sfx ≠ k0 := by
  apply str_ne_of_data_len
  have hf := fkey_len side mid sfx
  have hk : k0.data.length = 6 ∨ k0.data.length = 14 := by
    rcases hk0 with h | h | h <;> subst h
    · exact Or.inl rfl
    · exact Or.inr rfl
    · exact Or.inr rfl
  rcases hsfx with h0 | h3
  · subst h0
    have : ("" : String).data.length = 0 := rfl
    omega
  · omega

theorem dictGet_dictSet (d : Dict) (k : String) (v : PyVal) (k0 : String) :
    dictGet (dictSet d k v) k0 = if k = k0 then some v else dictGet d k0 := by
  induction d with
  | nil => simp [dictSet, dictGet]
  | cons hd t ih =>
    obtain ⟨k', v'⟩ := hd
    simp only [dictSet]
    by_cases h1 : k' = k
    · subst h1
      simp only [if_pos rfl, dictGet]
      by_cases h2 : k' = k0 <;> simp [h2]
    · rw [if_neg h1]
      simp only [dictGet]
      by_cases h2 : k' = k0
      · subst h2
        have hne : ¬ (k = k') := fun e => h1 e.symm
        simp [hne]
      · simp [h2, ih]

theorem dictGet_dictSet_ne {k k0 : String} (d : Dict) (v : PyVal)
    (h : k ≠ k0) : dictGet (dictSet d k v) k0 = dictGet d k0 := by
  simp [dictGet_dictSet, h]

theorem except_bind_ok {ε α β : Type} (x : Except ε α) (f : α → Except ε β)
    (b : β) : (x >>= f) = .ok b ↔ ∃ a, x = .ok a ∧ f a = .ok b := by
  cases x <;> simp [Bind.bind, Except.bind]

theorem foldlM_lookup_frame {α : Type} (step : Dict → α → Except PyErr Dict)
    (k0 : String) (l : List α)
    (h : ∀ d a d', a ∈ l → step d a = .ok d' →
      dictGet d' k0 = dictGet d k0) :
    ∀ d d', l.foldlM step d = .ok d' → dictGet d' k0 = dictGet d k0 := by
  induction l with
  | nil =>
    intro d d' e
    simp [List.foldlM, pure, Except.pure] at e
    rw [e]
  | cons a t ih =>
    intro d d' e
    have e' : (step d a >>= fun d1 => t.foldlM step d1) = .ok d' := e
    rw [except_bind_ok] at e'
    obtain ⟨d1, h1, h2⟩ := e'
    rw [ih (fun d a d' ha => h d a d' (List.mem_cons_of_mem _ ha)) d1 d' h2,
      h d a d1 (List.mem_cons_self a t) h1]

theorem lookup_frame2 (d : Dict) (k1 k2 k0 : String) (v1 v2 : PyVal)
    (h1 : k1 ≠ k0) (h2 : k2 ≠ k0) :
    dictGet (dictSet (dictSet d k1 v1) k2 v2) k0 = dictGet d k0 := by
  rw [dictGet_dictSet_ne _ _ h2, dictGet_dictSet_ne _ _ h1]

theorem lookup_frame4 (d : Dict) (k1 k2 k3 k4 k0 : String)
    (v1 v2 v3 v4 : PyVal) (h1 : k1 ≠ k0) (h2 : k2 ≠ k0) (h3 : k3 ≠ k0)
    (h4 : k4 ≠ k0) :
    dictGet (dictSet (dictSet (dictSet (dictSet d k1 v1) k2 v2) k3 v3) k4 v4)
      k0 = dictGet d k0 := by
  rw [dictGet_dictSet_ne _ _ h4, dictGet_dictSet_ne _ _ h3,
    dictGet_dictSet_ne _ _ h2, dictGet_dictSet_ne _ _ h1]

/-- The breakdown cell writes only `fighter_{a,b}_{stat}_{landed,attempted}`
keys, so the winner label and the side names survive it. -/
theorem parseSigCell_frame (d : Dict) (suffix stat_name : String)
    (td : TdTag) (d' : Dict) (k0 : String)
    (hsn : stat_name ∈ sigStatNames)
    (hsfx : suffix = "" ∨ 3 ≤ suffix.data.length)
    (hk0 : ProtKey k0)
    (h : parseSigCell d suffix stat_name td = .ok d') :
    dictGet d' k0 = dictGet d k0 := by
  have hmid2 : 2 ≤ (stat_name ++ "_landed").data.length ∧
      (stat_name ++ "_landed").data.length ≠ 4 ∧
      2 ≤ (stat_name ++ "_attempted").data.length ∧
      (stat_name ++ "_attempted").data.length ≠ 4 := by
    fin_cases hsn <;> refine ⟨by decide, by decide, by decide, by decide⟩
  simp only [parseSigCell] at h
  rw [except_bind_ok] at h
  obtain ⟨pa, hpa, h⟩ := h
  rw [except_bind_ok] at h
  obtain ⟨pb, hpb, h⟩ := h
  rw [except_bind_ok] at h
  obtain ⟨fa, hfa, h⟩ := h
  rw [except_bind_ok] at h
  obtain ⟨fb, hfb, h⟩ := h
  injection h with h
  subst h
  exact lookup_frame4 _ _ _ _ _ _ _ _ _ _
    (fkey_ne_prot _ _ _ _ rfl hmid2.1 hmid2.2.1 hsfx hk0)
    (fkey_ne_prot _ _ _ _ rfl hmid2.2.2.1 hmid2.2.2.2 hsfx hk0)
    (fkey_ne_prot _ _ _ _ rfl hmid2.1 hmid2.2.1 hsfx hk0)
    (fkey_ne_prot _ _ _ _ rfl hmid2.2.2.1 hmid2.2.2.2 hsfx hk0)

/-- The totals cell likewise writes only `fighter_{a,b}_...` statistics
keys, in every one of its branches. -/
theorem parseTotalsCell_frame (d : Dict) (suffix stat_name : String)
    (td : TdTag) (d' : Dict) (k0 : String)
    (hsn : stat_name ∈ totalsStatNames)
    (hsfx : suffix = "" ∨ 3 ≤ suffix.data.length)
    (hk0 : ProtKey k0)
    (h : parseTotalsCell d suffix stat_name td = .ok d') :
    dictGet d' k0 = dictGet d k0 := by
  simp only [parseTotalsCell] at h
  rw [except_bind_ok] at h
  obtain ⟨pa, hpa, h⟩ := h
  rw [except_bind_ok] at h
  obtain ⟨pb, hpb, h⟩ := h
  fin_cases hsn
  · rw [if_pos (by decide)] at h
    injection h with h
    subst h
    exact lookup_frame2 _ _ _ _ _ _
      (fkey_ne_prot _ _ _ _ rfl (by decide) (by decide) hsfx hk0)
      (fkey_ne_prot _ _ _ _ rfl (by decide) (by decide) hsfx hk0)
  · rw [if_neg (by decide), if_neg (by decide), if_pos (by decide)] at h
    rw [except_bind_ok] at h
    obtain ⟨fa, hfa, h⟩ := h
    rw [except_bind_ok] at h
    obtain ⟨fb, hfb, h⟩ := h
    injection h with h
    subst h
    exact lookup_frame4 _ _ _ _ _ _ _ _ _ _
      (fkey_ne_prot _ _ _ _ rfl (by decide) (by decide) hsfx hk0)
      (fkey_ne_prot _ _ _ _ rfl (by decide) (by decide) hsfx hk0)
      (fkey_ne_prot _ _ _ _ rfl (by decide) (by decide) hsfx hk0)
      (fkey_ne_prot _ _ _ _ rfl (by decide) (by decide) hsfx hk0)
  · rw [if_neg (by decide), if_pos (by decide)] at h
    split at h
    all_goals rw [except_bind_ok] at h
    all_goals obtain ⟨qa, hqa, h⟩ := h
    all_goals split at h
    all_goals rw [except_bind_ok] at h
    all_goals obtain ⟨qb, hqb, h⟩ := h
    all_goals injection h with h
    all_goals subst h
    all_goals
      exact lookup_frame2 _ _ _ _ _ _
        (fkey_ne_prot _ _ _ _ rfl (by decide) (by decide) hsfx hk0)
        (fkey_ne_prot _ _ _ _ rfl (by decide) (by decide) hsfx hk0)
  · rw [if_neg (by decide), if_neg (by decide), if_pos (by decide)] at h
    rw [except_bind_ok] at h
    obtain ⟨fa, hfa, h⟩ := h
    rw [except_bind_ok] at h
    obtain ⟨fb, hfb, h⟩ := h
    injection h with h
    subst h
    exact lookup_frame4 _ _ _ _ _ _ _ _ _ _
      (fkey_ne_prot _ _ _ _ rfl (by decide) (by decide) hsfx hk0)
      (fkey_ne_prot _ _ _ _ rfl (by decide) (by decide) hsfx hk0)
      (fkey_ne_prot _ _ _ _ rfl (by decide) (by decide) hsfx hk0)
      (fkey_ne_prot _ _ _ _ rfl (by decide) (by decide) hsfx hk0)
  · rw [if_neg (by decide), if_neg (by decide), if_pos (by decide)] at h
    rw [except_bind_ok] at h
    obtain ⟨fa, hfa, h⟩ := h
    rw [except_bind_ok] at h
    obtain ⟨fb, hfb, h⟩ := h
    injection h with h
    subst h
    exact lookup_frame4 _ _ _ _ _ _ _ _ _ _
      (fkey_ne_prot _ _ _ _ rfl (by decide) (by decide) hsfx hk0)
      (fkey_ne_prot _ _ _ _ rfl (by decide) (by decide) hsfx hk0)
      (fkey_ne_prot _ _ _ _ rfl (by decide) (by decide) hsfx hk0)
      (fkey_ne_prot _ _ _ _ rfl (by decide) (by decide) hsfx hk0)
  · rw [if_neg (by decide), if_pos (by decide)] at h
    split at h
    all_goals rw [except_bind_ok] at h
    all_goals obtain ⟨qa, hqa, h⟩ := h
    all_goals split at h
    all_goals rw [except_bind_ok] at h
    all_goals obtain ⟨qb, hqb, h⟩ := h
    all_goals injection h with h
    all_goals subst h
    all_goals
      exact lookup_frame2 _ _ _ _ _ _
        (fkey_ne_prot _ _ _ _ rfl (by decide) (by decide) hsfx hk0)
        (fkey_ne_prot _ _ _ _ rfl (by decide) (by decide) hsfx hk0)
  · rw [if_pos (by decide)] at h
    injection h with h
    subst h
    exact lookup_frame2 _ _ _ _ _ _
      (fkey_ne_prot _ _ _ _ rfl (by decide) (by decide) hsfx hk0)
      (fkey_ne_prot _ _ _ _ rfl (by decide) (by decide) hsfx hk0)
  · rw [if_pos (by decide)] at h
    injection h with h
    subst h
    exact lookup_frame2 _ _ _ _ _ _
      (fkey_ne_prot _ _ _ _ rfl (by decide) (by decide) hsfx hk0)
      (fkey_ne_prot _ _ _ _ rfl (by decide) (by decide) hsfx hk0)
  · rw [if_neg (by decide), if_neg (by decide), if_neg (by decide),
      if_pos (by decide)] at h
    rw [except_bind_ok] at h
    obtain ⟨sa, hsa, h⟩ := h
    rw [except_bind_ok] at h
    obtain ⟨sb, hsb, h⟩ := h
    injection h with h
    subst h
    exact lookup_frame2 _ _ _ _ _ _
      (fkey_ne_prot _ _ _ _ rfl (by decide) (by decide) hsfx hk0)
      (fkey_ne_prot _ _ _ _ rfl (by decide) (by decide) hsfx hk0)

theorem req_ok {α : Type} {o : Option α} {e : PyErr} {a : α} :
    req o e = .ok a ↔ o = some a := by
  cases o <;> simp [req]

/-- `parse_totals` never writes the winner label or the side names. -/
theorem parse_totals_frame (totals : TableTag) (d : Dict) (a b : Nat)
    (mr : Bool) (d' : Dict) (k0 : String) (hk0 : ProtKey k0)
    (h : parse_totals totals d a b mr = .ok d') :
    dictGet d' k0 = dictGet d k0 := by
  refine foldlM_lookup_frame _ k0 totals.trs.enum ?_ d d' h
  intro d1 rrow d2 hmem hstep
  refine foldlM_lookup_frame _ k0 totalsStatNames.enum ?_ d1 d2 hstep
  intro d3 p d4 hp hcell
  have hsn : p.2 ∈ totalsStatNames := by
    have hm := List.mem_map_of_mem Prod.snd hp
    rwa [List.enum_map_snd] at hm
  split at hcell
  · exact parseTotalsCell_frame d3 _ p.2 _ d4 k0 hsn
      (mkSuffix_cases mr rrow.1) hk0 hcell
  · simp only [pure, Except.pure] at hcell
    cases hcell
    rfl

/-- `parse_sig_strikes` never writes the winner label or the side names. -/
theorem parse_sig_strikes_frame (el : TableTag) (d : Dict) (a b : Nat)
    (mr : Bool) (d' : Dict) (k0 : String) (hk0 : ProtKey k0)
    (h : parse_sig_strikes el d a b mr = .ok d') :
    dictGet d' k0 = dictGet d k0 := by
  refine foldlM_lookup_frame _ k0 el.trs.enum ?_ d d' h
  intro d1 rrow d2 hmem hstep
  refine foldlM_lookup_frame _ k0 sigStatNames.enum ?_ d1 d2 hstep
  intro d3 p d4 hp hcell
  have hsn : p.2 ∈ sigStatNames := by
    have hm := List.mem_map_of_mem Prod.snd hp
    rwa [List.enum_map_snd] at hm
  split at hcell
  · exact parseSigCell_frame d3 _ p.2 _ d4 k0 hsn
      (mkSuffix_cases mr rrow.1) hk0 hcell
  · simp only [pure, Except.pure] at hcell
    cases hcell
    rfl

/-- The four statistics passes of `get_fight_stats` leave the winner
label and the side names untouched. -/
theorem gfs_stats_frame (page : FightPage) (d : Dict) (a b : Nat)
    (d' : Dict) (k0 : String) (hk0 : ProtKey k0)
    (h : gfs_stats page d a b = .ok d') :
    dictGet d' k0 = dictGet d k0 := by
  simp only [gfs_stats] at h
  rw [except_bind_ok] at h
  obtain ⟨t1, ht1, h⟩ := h
  rw [except_bind_ok] at h
  obtain ⟨d1, hd1, h⟩ := h
  rw [except_bind_ok] at h
  obtain ⟨t2, ht2, h⟩ := h
  rw [except_bind_ok] at h
  obtain ⟨d2, hd2, h⟩ := h
  rw [except_bind_ok] at h
  obtain ⟨t3, ht3, h⟩ := h
  rw [except_bind_ok] at h
  obtain ⟨d3, hd3, h⟩ := h
  rw [except_bind_ok] at h
  obtain ⟨t4, ht4, h⟩ := h
  rw [except_bind_ok] at h
  obtain ⟨d4, hd4, h⟩ := h
  injection h with h
  subst h
  rw [parse_sig_strikes_frame _ _ _ _ _ _ _ hk0 hd4,
    parse_sig_strikes_frame _ _ _ _ _ _ _ hk0 hd3,
    parse_totals_frame _ _ _ _ _ _ _ hk0 hd2,
    parse_totals_frame _ _ _ _ _ _ _ hk0 hd1]

/-- Decomposition of the winner phase: it reads the detected name and
the stored side-a name and writes exactly the `winner` key. -/
theorem gfs_winner_ok (ps : List PersonDiv) (d d' : Dict)
    (h : gfs_winner ps d = .ok d') :
    ∃ w va, detectWinnerName ps = .ok w ∧
      dictGet d "fighter_a_name" = some va ∧
      d' = dictSet d "winner"
        (.str (if pyEq (.str w) va then "a" else "b")) := by
  simp only [gfs_winner] at h
  rw [except_bind_ok] at h
  obtain ⟨w, hw, h⟩ := h
  rw [except_bind_ok] at h
  obtain ⟨va, hva, h⟩ := h
  injection h with h
  exact ⟨w, va, hw, req_ok.mp hva, h.symm⟩

/-- Decomposition of a successful `gfs_core` run into its phases. -/
theorem gfs_core_ok (netFi : String → Option FighterPage)
    (page : FightPage) (bit : Nat) (date location : String) (rec : Dict)
    (h : gfs_core netFi page bit date location = .ok rec) :
    ∃ ps d1 d2 d3 d4, page.persons = some ps ∧
      gfs_names ps bit = .ok d1 ∧ gfs_bio netFi d1 = .ok d2 ∧
      gfs_meta page d2 date location = .ok d3 ∧
      gfs_winner ps d3 = .ok d4 ∧
      gfs_stats page d4 bit (1 - bit) = .ok rec := by
  simp only [gfs_core] at h
  rw [except_bind_ok] at h
  obtain ⟨ps, hps, h⟩ := h
  rw [except_bind_ok] at h
  obtain ⟨d1, hd1, h⟩ := h
  rw [except_bind_ok] at h
  obtain ⟨d2, hd2, h⟩ := h
  rw [except_bind_ok] at h
  obtain ⟨d3, hd3, h⟩ := h
  rw [except_bind_ok] at h
  obtain ⟨d4, hd4, h⟩ := h
  exact ⟨ps, d1, d2, d3, d4, req_ok.mp hps, hd1, hd2, hd3, hd4, h⟩

theorem pyEq_str_right {w : String} {v : PyVal}
    (h : pyEq (.str w) v = true) : v = .str w := by
  cases v <;> simp_all [pyEq]

/-! ## Claim theorems -/

/-- C2 (amended): for every record the fight statistics extractor
produces, the `winner` field is `"a"` or `"b"`; and **when the detected
on-page winner name equals one of the two assigned side names**, the
side designated as winner carries exactly the detected name
(case-sensitive string comparison).  The match hypothesis added
relative to the original claim is forced by the counterexample: when
the detected name matches neither side, the code falls through to side
`"b"` whose name differs from the detected one. -/
theorem C2_winner_label_matches_detected_name
    (netFi : String → Option FighterPage) (page : FightPage) (bit : Nat)
    (date location : String) (rec : Dict)
    (h : gfs_core netFi page bit date location = .ok rec) :
    (dictGet rec "winner" = some (.str "a") ∨
      dictGet rec "winner" = some (.str "b")) ∧
    (∀ ps w, page.persons = some ps → detectWinnerName ps = .ok w →
      (dictGet rec "fighter_a_name" = some (.str w) ∨
        dictGet rec "fighter_b_name" = some (.str w)) →
      ((dictGet rec "winner" = some (.str "a") →
          dictGet rec "fighter_a_name" = some (.str w)) ∧
       (dictGet rec "winner" = some (.str "b") →
          dictGet rec "fighter_b_name" = some (.str w)))) := by
  obtain ⟨ps, d1, d2, d3, d4, hps, hd1, hd2, hd3, hd4, hst⟩ :=
    gfs_core_ok _ _ _ _ _ _ h
  obtain ⟨w0, va, hw0, hva, hd4e⟩ := gfs_winner_ok _ _ _ hd4
  subst hd4e
  have hw : dictGet rec "winner"
      = some (.str (if pyEq (.str w0) va = true then "a" else "b")) := by
    rw [gfs_stats_frame _ _ _ _ _ _ (Or.inl rfl) hst]
    simp [dictGet_dictSet]
  have han : dictGet rec "fighter_a_name" = some va := by
    rw [gfs_stats_frame _ _ _ _ _ _ (Or.inr (Or.inl rfl)) hst,
      dictGet_dictSet_ne _ _ (by decide)]
    exact hva
  have hbn : dictGet rec "fighter_b_name" = dictGet d3 "fighter_b_name" := by
    rw [gfs_stats_frame _ _ _ _ _ _ (Or.inr (Or.inr rfl)) hst,
      dictGet_dictSet_ne _ _ (by decide)]
  constructor
  · by_cases hq : pyEq (.str w0) va = true
    · left
      rw [hw, if_pos hq]
    · right
      rw [hw, if_neg hq]
  · intro ps' w hps' hw'
    rw [hps] at hps'
    injection hps' with e
    subst e
    rw [hw0] at hw'
    injection hw' with e
    subst e
    intro hmem
    constructor
    · intro hwa
      by_cases hq : pyEq (.str w0) va = true
      · rw [han, pyEq_str_right hq]
      · rw [hw, if_neg hq] at hwa
        exact absurd hwa (by simp)
    · intro hwb
      by_cases hq : pyEq (.str w0) va = true
      · rw [hw, if_pos hq] at hwb
        exact absurd hwb (by simp)
      · rcases hmem with ha | hb
        · rw [han] at ha
          injection ha with e
          exact absurd (by rw [e]; simp [pyEq]) hq
        · exact hb

/-- C2 witness: on a page whose winner marker names the page-first
fighter Bob, with random bit 0 the record carries `winner = "a"` and
side a is indeed Bob. -/
theorem C2_winner_witness :
    (dictGet c2Rec "winner" = some (.str "a") ∨
      dictGet c2Rec "winner" = some (.str "b")) ∧
    dictGet c2Rec "fighter_a_name" = some (.str "Bob") := by
  have h : gfs_core noFighterNet c2Page 0 "August 09, 2025"
      "Las Vegas, Nevada, USA" = .ok c2Rec := by decide
  have main := C2_winner_label_matches_detected_name noFighterNet c2Page 0
    "August 09, 2025" "Las Vegas, Nevada, USA" c2Rec h
  refine ⟨main.1, ?_⟩
  exact (main.2 _ "Bob" rfl (by decide) (Or.inl (by decide))).1 (by decide)

/-- C2 counterexample: on `carolPage` the detected winner name is
`"Carol"`, which matches neither assigned side; the produced record
nevertheless designates side `"b"` as winner, and the side b name is
`"Bob"`, not the detected name - so the claim as stated fails. -/
theorem C2_winner_name_mismatch_cex :
    gfs_core noFighterNet carolPage 0 "August 09, 2025"
      "Las Vegas, Nevada, USA" = .ok carolRec ∧
    detectWinnerName
      [mkPerson "Alice" "http://x/fighter-details/a1" false,
       mkPerson "Bob" "http://x/fighter-details/b1" false,
       mkPerson "Carol" "http://x/fighter-details/c1" true] = .ok "Carol" ∧
    dictGet carolRec "winner" = some (.str "b") ∧
    dictGet carolRec "fighter_b_name" = some (.str "Bob") ∧
    dictGet carolRec "fighter_a_name" = some (.str "Alice") ∧
    ("Bob" : String) ≠ "Carol" ∧ ("Alice" : String) ≠ "Carol" := by
  exact ⟨by decide, by decide, by decide, by decide, by decide,
    by decide, by decide⟩

/-- C1: the random side bit relabels the names but the per-side
statistics always follow the page order.  On `c1Page` (page-first
fighter Alice with 3 knockdowns, page-second Bob with 1), flipping the
bit from 0 to 1 swaps `fighter_a_name` from Alice to Bob while
`fighter_a_kd` stays 3 - Alice's statistic now sits under Bob's name.
The final conjunct shows every field other than the two names and the
winner label is identical across the two runs: no statistic follows
the bit.  (In the source, `parse_totals` and `parse_sig_strikes`
receive `fighter_a_id_` / `fighter_b_id_` and never use them, always
writing `stat_values[0]` to the `fighter_a_*` keys.) -/
theorem C1_side_randomization_ignored_by_stats :
    gfs_core noFighterNet c1Page 0 "August 09, 2025"
      "Las Vegas, Nevada, USA" = .ok (c1Rec 0) ∧
    gfs_core noFighterNet c1Page 1 "August 09, 2025"
      "Las Vegas, Nevada, USA" = .ok (c1Rec 1) ∧
    dictGet (c1Rec 0) "fighter_a_name" = some (.str "Alice") ∧
    dictGet (c1Rec 1) "fighter_a_name" = some (.str "Bob") ∧
    dictGet (c1Rec 0) "fighter_a_kd" = some (.int 3) ∧
    dictGet (c1Rec 1) "fighter_a_kd" = some (.int 3) ∧
    dictGet (c1Rec 0) "fighter_b_kd" = some (.int 1) ∧
    dictGet (c1Rec 1) "fighter_b_kd" = some (.int 1) ∧
    (c1Rec 0).filter (fun kv => !(decide (kv.1 = "fighter_a_name" ∨
        kv.1 = "fighter_b_name" ∨ kv.1 = "winner")))
      = (c1Rec 1).filter (fun kv => !(decide (kv.1 = "fighter_a_name" ∨
        kv.1 = "fighter_b_name" ∨ kv.1 = "winner"))) := by
  exact ⟨by decide, by decide, by decide, by decide, by decide,
    by decide, by decide, by decide, by decide⟩

/-- C4: a fight page without the winner-status marker makes the
extractor raise `AttributeError` (no record, no flag); a page whose
detected winner name matches neither side silently produces
`winner = "b"`, and the record's key set contains no ambiguity flag of
any kind - its keys are exactly the standard ones. -/
theorem C4_winner_ambiguity_behavior :
    gfs_core noFighterNet noMarkerPage 0 "August 09, 2025"
      "Las Vegas, Nevada, USA" = .error .attributeError ∧
    gfs_core noFighterNet carolPage 0 "August 09, 2025"
      "Las Vegas, Nevada, USA" = .ok carolRec ∧
    dictGet carolRec "winner" = some (.str "b") ∧
    carolRec.map Prod.fst =
      ["fighter_a_name", "fighter_b_name", "date", "location",
       "weight_class", "victory_method", "final_round", "finish_time",
       "number_of_rounds", "winner"] := by
  exact ⟨by decide, by decide, by decide, by decide⟩

/-- C6: the spec examples hold, but `parse_fraction` is not total:
any input containing the substring `of` without a well-formed
`"X of Y"` shape reaches the unguarded `int(...)` conversions and
raises `ValueError` (for example the single word `"of"`, or
`"1 of x"`), contradicting both the claim and the docstring of the
function itself. -/
theorem C6_parse_fraction_examples_and_crash :
    parse_fraction "12 of 25" = .ok (12, 25) ∧
    parse_fraction "garbage" = .ok (0, 0) ∧
    parse_fraction "" = .ok (0, 0) ∧
    parse_fraction "of" = .error .valueError ∧
    parse_fraction "1 of x" = .error .valueError := by
  exact ⟨by decide, by decide, by decide, by decide, by decide⟩

/-- C9: for any side, any statistic key base and any round number, the
round-tagged key (suffix `_0r`) differs from the aggregate key (empty
suffix) of the same statistic.  Every statistics write of
`parse_totals` / `parse_sig_strikes` builds its key as
`fkey side mid (mkSuffix multiple_rows r)`, with `multiple_rows = true`
exactly for the per-round tables, so per-round writes never overwrite
aggregate values (nor conversely). -/
theorem C9_round_keys_never_collide (side mid : String) (r : Nat) :
    fkey side mid (mkSuffix true r) ≠ fkey side mid (mkSuffix false r) := by
  apply str_ne_of_data_len
  rw [fkey_len, fkey_len]
  have h3 := mkSuffix_true_len r
  have h0 : (mkSuffix false r).data.length = 0 := rfl
  omega

theorem strIsEmpty_iff (v : String) : strIsEmpty v = true ↔ v = "" := by
  cases v with
  | mk l => cases l <;> simp [strIsEmpty, String.ext_iff]

/-- C10: in the fighter profile extractor, a labeled value is stored as
the unknown sentinel `None` exactly when it is empty or contains a `-`
anywhere - so the site's `--` placeholder is filtered, but so is any
legitimate hyphenated value (witnessed end to end by a stance value of
`Karate-Do` stored as `None`). -/
theorem C10_dash_filter_discards_hyphenated_values :
    (∀ v : String, li_store v = PyVal.none ↔
      (v = "" ∨ strContains v '-' = true)) ∧
    li_store "Karate-Do" = PyVal.none ∧
    li_store "--" = PyVal.none ∧
    li_store "Orthodox" = PyVal.str "Orthodox" ∧
    (∃ d, get_fighter_basic_stats (fun _ => some goodFighterPage)
        (.str "http://x/fighter-details/a1") = .ok (some d) ∧
      dictGet d "stance" = some PyVal.none) := by
  refine ⟨?_, by decide, by decide, by decide, ?_⟩
  · intro v
    by_cases h1 : strIsEmpty v = true
    · have hv : v = "" := (strIsEmpty_iff v).mp h1
      subst hv
      simp [li_store, show strIsEmpty "" = true from rfl]
    · have hv : ¬ (v = "") := fun e => h1 ((strIsEmpty_iff v).mpr e)
      by_cases h2 : strContains v '-' = true
      · simp [li_store, h1, h2, hv]
      · simp [li_store, h1, h2, hv]
  · refine ⟨_, rfl, by decide⟩

/-- C5 counterexample: a profile whose height text is `"six feet"`
(non-empty, dash-free, so it passes the placeholder filter but not the
height pattern) makes the whole extractor raise `AttributeError`
instead of storing the unknown sentinel and keeping the profile. -/
theorem C5_malformed_height_raises_cex :
    get_fighter_basic_stats (fun _ => some badHeightFighterPage)
      (.str "http://x/fighter-details/a1") = .error .attributeError := by
  decide

/-- C5 (amended): the height pipeline of the fighter profile extractor
behaves as follows.  A well-formed height of five feet eleven inches
is converted to 71
total inches with the rest of the profile intact (first conjunct, end
to end).  A height that reached the unknown sentinel `None` (absent,
empty, or dash-containing, including the site's `--` placeholder)
stays `None` (second conjunct).  But any other stored height text that
does not match the pattern makes the height step raise
`AttributeError`, which escapes the extractor and fails the whole
profile (third conjunct; the original claim said such text yields the
unknown sentinel). -/
theorem C5_height_parsing_amended :
    (∃ d, get_fighter_basic_stats (fun _ => some goodFighterPage)
        (.str "http://x/fighter-details/a1") = .ok (some d) ∧
      dictGet d "height" = some (.int 71) ∧
      dictGet d "name" = some (.str "Jon Jones")) ∧
    (∀ d, pyGet d "height" = PyVal.none →
      fi_height_step d = .ok (dictSet d "height" PyVal.none)) ∧
    (∀ d s, pyGet d "height" = .str s → heightMatch s = Option.none →
      fi_height_step d = .error .attributeError) := by
  refine ⟨⟨_, rfl, by decide, by decide⟩, ?_, ?_⟩
  · intro d h
    simp [fi_height_step, h, pure, Except.pure]
  · intro d s h hm
    simp [fi_height_step, h, hm]

/-- C5 witness: the two universal parts of the amended claim applied at
concrete dictionaries. -/
theorem C5_height_witness :
    fi_height_step [("height", PyVal.none)]
      = .ok (dictSet [("height", PyVal.none)] "height" PyVal.none) ∧
    fi_height_step [("height", PyVal.str "six feet")]
      = .error .attributeError := by
  refine ⟨C5_height_parsing_amended.2.1 _ (by decide), ?_⟩
  exact C5_height_parsing_amended.2.2 _ "six feet" (by decide) (by decide)

/-- C3 counterexample: an event with two fights whose first fight page
is missing the expected persons container.  The fight extractor raises
`AttributeError` instead of returning a "not found" result, the event
extractor has no handler, and the whole event run aborts - the second
fight is never processed and no list is returned. -/
theorem C3_missing_container_aborts_event_cex :
    get_event_fights c3NetE c3NetF noFighterNet (fun _ => 0)
      "http://x/event-details/e1" "August 09, 2025"
      "Las Vegas, Nevada, USA" = .error .attributeError := by
  decide

/-- C3 (amended): the "not found" result arises only from a failed or
rejected page fetch, and is then the per-fight result (first
conjunct).  A missing structural container (the persons block being
the first one looked up) instead raises `AttributeError` (second
conjunct), and the event loop propagates any per-fight exception,
aborting the remaining fights of the event rather than skipping the
failed one (third conjunct). -/
theorem C3_failure_policy_amended :
    (∀ (netF : String → Option FightPage)
        (netFi : String → Option FighterPage) (bit : Nat)
        (u : Option String) (date location : String),
      getFightPage netF u = .ok Option.none →
      get_fight_stats netF netFi bit u location date = .ok Option.none) ∧
    (∀ (netFi : String → Option FighterPage) (page : FightPage)
        (bit : Nat) (date location : String),
      page.persons = Option.none →
      gfs_core netFi page bit date location = .error .attributeError) ∧
    (∀ (netF : String → Option FightPage)
        (netFi : String → Option FighterPage) (bits : Nat → Nat)
        (date location : String) (i : Nat) (u : Option String)
        (rest : List (Option String)) (e : PyErr),
      get_fight_stats netF netFi (bits i) u location date = .error e →
      processFights netF netFi bits date location i (u :: rest)
        = .error e) := by
  refine ⟨?_, ?_, ?_⟩
  · intro netF netFi bit u date location h
    simp [get_fight_stats, h, Bind.bind, Except.bind]
  · intro netFi page bit date location h
    simp [gfs_core, h, req, Bind.bind, Except.bind]
  · intro netF netFi bits date location i u rest e h
    simp [processFights, h, Bind.bind, Except.bind]

/-- C3 witness: the three parts of the amended failure policy applied
at concrete inputs (a rejected fight URL, the persons-less fight page,
and the aborting event loop of the counterexample). -/
theorem C3_failure_policy_witness :
    get_fight_stats (fun _ => Option.none) noFighterNet 0
      (some "http://x/other") "Las Vegas, Nevada, USA"
      "August 09, 2025" = .ok Option.none ∧
    gfs_core noFighterNet noPersonsPage 0 "August 09, 2025"
      "Las Vegas, Nevada, USA" = .error .attributeError ∧
    processFights c3NetF noFighterNet (fun _ => 0) "August 09, 2025"
      "Las Vegas, Nevada, USA" 0
      [some "http://x/fight-details/f1", some "http://x/fight-details/f2"]
      = .error .attributeError := by
  refine ⟨C3_failure_policy_amended.1 _ noFighterNet 0 _ _ _ (by decide),
    C3_failure_policy_amended.2.1 noFighterNet noPersonsPage 0 _ _ rfl,
    C3_failure_policy_amended.2.2 c3NetF noFighterNet _ _ _ 0 _ _ _
      (by decide)⟩

theorem dupPairs_every_other {α β : Type} (g : α → β) :
    ∀ (n : Nat) (bs : List α),
      ((((dupPairs bs).enumFrom (2 * n)).filter
        (fun p => p.1 % 2 = 0)).map (fun p => g p.2)) = bs.map g := by
  intro n bs
  induction bs generalizing n with
  | nil => rfl
  | cons b t ih =>
    have h1 : (2 * n) % 2 = 0 := by omega
    have h2 : ¬ ((2 * n + 1) % 2 = 0) := by omega
    simp only [dupPairs, List.enumFrom, List.filter_cons, List.map_cons]
    simp [h1, h2]
    have e : 2 * n + 1 + 1 = 2 * (n + 1) := by omega
    rw [e]
    exact ih (n + 1)

/-- C7 counterexample: on a page where a no-winner fight row (two
bordered-flag copies of `u1`) is listed before a decided fight (`u2`),
the extractor derives `[u2, u1]` - all decided fights first - while
the on-page listing order (flag anchors in document order,
de-duplicated by first occurrence, per the spec) is `[u1, u2]`.  The
i-th record therefore does not correspond to the i-th fight row. -/
theorem C7_listing_order_cex :
    fightUrlsOf c7Tb = [some "u2", some "u1"] ∧
    spec_listing_order c7Tb = [some "u1", some "u2"] ∧
    fightUrlsOf c7Tb ≠ spec_listing_order c7Tb := by
  exact ⟨by decide, by decide, by decide⟩

/-- C7 (amended): one fight URL per green anchor, and - when the
bordered anchors come in adjacent duplicated pairs as the markup
provides them - exactly one URL per no-winner row via the every-other
rule.  The output order is all decided (green-flag) fights in page
order followed by all no-winner (bordered-flag) fights in page order,
which differs from the page's interleaved listing order whenever a
no-winner fight is not listed last. -/
theorem C7_url_derivation_amended (tb : List ALink) (bs : List ALink)
    (hb : tb.filter (fun a => a.cls = "b-flag b-flag_style_bordered")
      = dupPairs bs) :
    fightUrlsOf tb =
      (tb.filter (fun a => a.cls = "b-flag b-flag_style_green")).map
        (fun t => t.href) ++ bs.map (fun b => b.href) := by
  unfold fightUrlsOf
  rw [hb]
  simpa [List.enum] using
    dupPairs_every_other (fun a : ALink => a.href) 0 bs

/-- C7 witness: the amended derivation applied to the concrete page of
the counterexample. -/
theorem C7_url_witness :
    fightUrlsOf c7Tb =
      (c7Tb.filter (fun a => a.cls = "b-flag b-flag_style_green")).map
        (fun t => t.href) ++
      [(⟨"b-flag b-flag_style_bordered", "", some "u1"⟩ : ALink)].map
        (fun b => b.href) := by
  exact C7_url_derivation_amended c7Tb
    [⟨"b-flag b-flag_style_bordered", "", some "u1"⟩] (by decide)

/-- C8 (spec-modelled): with a date cutoff supplied, the crawl - which
walks the most-recent-first listing and stops at the first event older
than the cutoff - returns exactly the events at or after the cutoff:
every event strictly older than the cutoff is excluded, events at or
after it are retained.  The hypothesis is the documented
most-recent-first order of the listing. -/
theorem C8_date_cutoff_crawl (events : List EventEntry) (cutoff : Nat)
    (hsorted : List.Pairwise (fun a b => b.dateKey ≤ a.dateKey) events) :
    get_all_fight_data_cutoff events cutoff
      = events.filter (fun e => cutoff ≤ e.dateKey) := by
  induction events with
  | nil => rfl
  | cons a t ih =>
    rcases List.pairwise_cons.mp hsorted with ⟨ha, ht⟩
    by_cases h : cutoff ≤ a.dateKey
    · simp only [get_all_fight_data_cutoff] at ih ⊢
      simp [List.takeWhile_cons, List.filter_cons, h, ih ht]
    · have hall : ∀ e ∈ t, ¬ (cutoff ≤ e.dateKey) :=
        fun e he hc => h (le_trans hc (ha e he))
      simp only [get_all_fight_data_cutoff]
      simp [List.takeWhile_cons, List.filter_cons, h]
      intro e he
      have := hall e he
      omega

/-- C8 witness: on a concrete most-recent-first listing with cutoff 15,
the crawl keeps exactly the two events dated at or after 15. -/
theorem C8_cutoff_witness :
    get_all_fight_data_cutoff c8Events 15
      = c8Events.filter (fun e => 15 ≤ e.dateKey) ∧
    get_all_fight_data_cutoff c8Events 15
      = [⟨"E1", 30, "L1", "u1"⟩, ⟨"E2", 20, "L2", "u2"⟩] := by
  refine ⟨C8_date_cutoff_crawl c8Events 15 (by decide), by decide⟩

end UFC
